import Mathlib

/-!
Shallow embedding of the K8055 USB IO-card driver core.

The authoritative code is `src/src/lib.rs`; the repository also carries the
historical snapshot `src/src/k8055.rs`, whose `find_any_k8055` is embedded
where a claim cites it.  Machine bytes (`u8`) and USB ids (`u16`) are
modelled as `Nat`: the driver only moves them between fields and masks them,
it never does arithmetic that could overflow.  The USB transport is an
external collaborator; the outcome the Rust code receives from it
(`Device::open`, `write_interrupt`, `read_interrupt`) is passed to each
operation as an explicit argument.  A Rust panic (out-of-bounds slice index,
`Option::unwrap` on `None`) is modelled as `none` in an outer `Option`,
kept distinct from errors returned gracefully as `Except.error`.
-/

/-- The subset of `libusb::Error` values this driver produces or propagates.
`noDevice` is the "not open" condition, `invalidParam` the "unsupported
command" condition, `notFound` the discovery failure. -/
inductive UsbError where
  | ioErr
  | invalidParam
  | noDevice
  | notFound
  | timeout
  | busy
  deriving DecidableEq, Repr

/-- Digital channel flag `DZERO` (all off) from the `DigitalChannel` bitflags. -/
def DZERO : Nat := 0

/-- Digital channel flag `D1`. -/
def D1 : Nat := 1

/-- Digital channel flag `D2`. -/
def D2 : Nat := 2

/-- Digital channel flag `D3`. -/
def D3 : Nat := 4

/-- Digital channel flag `D4`. -/
def D4 : Nat := 8

/-- Digital channel flag `D5`. -/
def D5 : Nat := 16

/-- Digital channel flag `D6`. -/
def D6 : Nat := 32

/-- Digital channel flag `D7`. -/
def D7 : Nat := 64

/-- Digital channel flag `D8`. -/
def D8 : Nat := 128

/-- Digital channel flag `DALL` (all on). -/
def DALL : Nat := 255

/-- Union of all defined flags: `DigitalChannel::all().bits()` in the
bitflags expansion. -/
def DigitalChannel.allBits : Nat :=
  DZERO ||| D1 ||| D2 ||| D3 ||| D4 ||| D5 ||| D6 ||| D7 ||| D8 ||| DALL

/-- `DigitalChannel::from_bits` as generated by the bitflags macro: succeeds
iff no bit outside `all()` is set; the complement of `all()` is taken in
`u8`, i.e. against 255. -/
def DigitalChannel.from_bits (bits : Nat) : Option Nat :=
  if bits &&& (255 ^^^ DigitalChannel.allBits) == 0 then some bits else none

/-- `AnalogChannel` from `src/src/lib.rs`: a tagged 0-255 value for one of
the two analog channels. -/
inductive AnalogChannel where
  | A1 (v : Nat)
  | A2 (v : Nat)
  deriving DecidableEq, Repr

/-- `Packet` from `src/src/lib.rs`: the outbound set-state command and the
inbound status report.  This snapshot has no other variant. -/
inductive Packet where
  | SetAnalogDigital (d a1 a2 : Nat)
  | Status (dig st a1 a2 : Nat)
  deriving DecidableEq, Repr

/-- `State` from `src/src/lib.rs`: the cached digital mask and the two cached
analog output bytes; `Default::default()` is all zeroes. -/
structure State where
  dig : Nat
  ana1 : Nat
  ana2 : Nat
  deriving DecidableEq, Repr

/-- A device descriptor as seen during discovery: vendor id and product id. -/
structure DeviceDesc where
  vendor_id : Nat
  product_id : Nat
  deriving DecidableEq, Repr

/-- Vendor id `0x10cf` of the card family. -/
def VENDOR_ID : Nat := 0x10cf

/-- Card address `CARD_1` (product id `0x5500`). -/
def CARD_1 : Nat := 0x5500

/-- Card address `CARD_2` (product id `0x5501`). -/
def CARD_2 : Nat := 0x5501

/-- Card address `CARD_3` (product id `0x5502`). -/
def CARD_3 : Nat := 0x5502

/-- Card address `CARD_4` (product id `0x5503`). -/
def CARD_4 : Nat := 0x5503

/-- Card address sentinel `CARD_ANY` (bits 0): match any of the four cards. -/
def CARD_ANY : Nat := 0x0

/-- `K8055<'a>` from `src/src/lib.rs`: the discovered device reference, the
open handle (an opaque transport capability, modelled as `Unit`), and the
cached output state. -/
structure K8055 where
  dev : Option DeviceDesc
  hd : Option Unit
  state : State
  deriving DecidableEq, Repr

/-- The `CARD_ANY` branch condition of `K8055::new_addr`
(`src/src/lib.rs` lines 143-148), keeping Rust's operator precedence:
`&&` binds tighter than `||`, so the vendor-id test only guards the
`CARD_1` comparison. -/
def anyCondition (desc : DeviceDesc) : Bool :=
  (desc.vendor_id == VENDOR_ID && CARD_1 == desc.product_id)
    || CARD_2 == desc.product_id
    || CARD_3 == desc.product_id
    || CARD_4 == desc.product_id

/-- `K8055::new_addr` from `src/src/lib.rs` lines 134-168: walks the
context's device list in enumeration order, binds the first device whose
descriptor satisfies the address condition (breaking out of the loop), and
builds a session with no handle and zeroed cached state; errors with
`NotFound` when no device matches. -/
def K8055.new_addr (devices : List DeviceDesc) (addr : Nat) : Except UsbError K8055 :=
  match devices.find? (fun desc =>
      if addr == CARD_ANY then anyCondition desc
      else desc.vendor_id == VENDOR_ID && addr == desc.product_id) with
  | some d => .ok ⟨some d, none, ⟨0, 0, 0⟩⟩
  | none => .error .notFound

/-- `K8055::new` from `src/src/lib.rs`: discovery with `CARD_ANY`. -/
def K8055.new (devices : List DeviceDesc) : Except UsbError K8055 :=
  K8055.new_addr devices CARD_ANY

/-- `Context::find_by_vid_pid` as used by `src/src/k8055.rs`: the first
device carrying the given vendor and product id. -/
def find_by_vid_pid (devices : List DeviceDesc) (vid pid : Nat) : Option DeviceDesc :=
  devices.find? (fun d => d.vendor_id == vid && d.product_id == pid)

/-- `K8055::find_any_k8055` from `src/src/k8055.rs` lines 248-254: tries the
product ids `CARD_1..=CARD_4` in increasing order and returns the first
vendor/product match. -/
def K8055.find_any_k8055 (devices : List DeviceDesc) : Option DeviceDesc :=
  [CARD_1, CARD_2, CARD_3, CARD_4].findSome? (fun pid => find_by_vid_pid devices VENDOR_ID pid)

/-- `K8055::open` from `src/src/lib.rs` lines 174-186.  `openRes` is what
`d.open().ok()` yields: `some` handle when the transport opens the device,
`none` when it fails (the error is discarded by `.ok()`).  Mirrors the code
exactly: an already-open session short-circuits to `true`; otherwise, when a
device reference exists, the `.ok()` of the open result is stored and `true`
is returned unconditionally; only a session with no device returns `false`. -/
def K8055.«open» (s : K8055) (openRes : Option Unit) : Bool × K8055 :=
  if s.hd.isSome then (true, s)
  else
    match s.dev with
    | some _ => (true, { s with hd := openRes })
    | none => (false, s)

/-- `K8055::encode` from `src/src/lib.rs` lines 326-333: the set-state
command becomes the fixed frame `[5, d, a1, a2, 0, 0, 0, 0]`; every other
variant has no wire representation and errors with `InvalidParam`. -/
def K8055.encode (p : Packet) : Except UsbError (List Nat) :=
  match p with
  | .SetAnalogDigital dig ana1 ana2 => .ok [5, dig, ana1, ana2, 0, 0, 0, 0]
  | _ => .error .invalidParam

/-- `K8055::decode` from `src/src/lib.rs` lines 335-337:
`Ok(Packet::Status(d[0], d[1], d[2], d[3]))`.  Rust slice indexing panics
when an index is out of bounds, so a buffer shorter than 4 bytes panics at
`d[3]` (or earlier); the panic is modelled as `none`.  The Rust function
never constructs an `Err`, so `some` is always a success. -/
def K8055.decode (d : List Nat) : Option Packet :=
  match d[0]?, d[1]?, d[2]?, d[3]? with
  | some b0, some b1, some b2, some b3 => some (.Status b0 b1 b2 b3)
  | _, _, _, _ => none

/-- Result of the internal write path: the returned `Result`, the session
after the call, and the frame handed to `write_interrupt` (`none` when no
transfer was attempted). -/
structure WriteOutcome where
  res : Except UsbError Unit
  self : K8055
  sent : Option (List Nat)
  deriving Repr

/-- `K8055::write` from `src/src/lib.rs` lines 291-312.  `tr` is the outcome
the transport returns for `write_interrupt`.  With no handle the call fails
`NoDevice` at once; otherwise the packet is encoded (`try!`, so an encode
error returns before any transfer), the frame is sent, a transfer error
propagates (`try!`) leaving the session untouched, and on success the cached
state is replaced by the packet's fields for a `SetAnalogDigital` packet
(`InvalidParam` for any other packet).  `detach_and_claim`'s result is
ignored by the code and carries no session state, so it is not modelled. -/
def K8055.write (s : K8055) (tr : Except UsbError Unit) (p : Packet) : WriteOutcome :=
  match s.hd with
  | some _ =>
    match K8055.encode p with
    | .error e => ⟨.error e, s, none⟩
    | .ok data =>
      match tr with
      | .error e => ⟨.error e, s, some data⟩
      | .ok _ =>
        match p with
        | .SetAnalogDigital d a1 a2 => ⟨.ok (), { s with state := ⟨d, a1, a2⟩ }, some data⟩
        | _ => ⟨.error .invalidParam, s, some data⟩
  | none => ⟨.error .noDevice, s, none⟩

/-- `K8055::reset` from `src/src/lib.rs`: writes all-zero state. -/
def K8055.reset (s : K8055) (tr : Except UsbError Unit) : WriteOutcome :=
  s.write tr (.SetAnalogDigital 0 0 0)

/-- `K8055::write_digital_out` from `src/src/lib.rs` lines 198-201: sends the
new digital mask together with the cached analog bytes. -/
def K8055.write_digital_out (s : K8055) (tr : Except UsbError Unit) (d : Nat) : WriteOutcome :=
  s.write tr (.SetAnalogDigital d s.state.ana1 s.state.ana2)

/-- `K8055::write_digital_out_mask` from `src/src/lib.rs` lines 207-213:
delegates to `write_digital_out` with `d & mask`. -/
def K8055.write_digital_out_mask (s : K8055) (tr : Except UsbError Unit) (d mask : Nat) :
    WriteOutcome :=
  s.write_digital_out tr (d &&& mask)

/-- `K8055::write_analog_out` from `src/src/lib.rs` lines 250-256: builds the
set-state command from the cached digital mask and the cached other analog
byte, substituting the targeted channel. -/
def K8055.write_analog_out (s : K8055) (tr : Except UsbError Unit) (a : AnalogChannel) :
    WriteOutcome :=
  match a with
  | .A1 v => s.write tr (.SetAnalogDigital s.state.dig v s.state.ana2)
  | .A2 v => s.write tr (.SetAnalogDigital s.state.dig s.state.ana1 v)

/-- `K8055::get_digital_out` from `src/src/lib.rs` lines 216-218:
`from_bits(state.dig).unwrap()`; the potential unwrap panic is the `none`
case. -/
def K8055.get_digital_out (s : K8055) : Option Nat :=
  DigitalChannel.from_bits s.state.dig

/-- `K8055::get_digital_out_mask` from `src/src/lib.rs` lines 221-223:
`from_bits(state.dig).unwrap() & d`. -/
def K8055.get_digital_out_mask (s : K8055) (d : Nat) : Option Nat :=
  (DigitalChannel.from_bits s.state.dig).map (fun c => c &&& d)

/-- `K8055::get_analog_out1` from `src/src/lib.rs`. -/
def K8055.get_analog_out1 (s : K8055) : AnalogChannel :=
  .A1 s.state.ana1

/-- `K8055::get_analog_out2` from `src/src/lib.rs`. -/
def K8055.get_analog_out2 (s : K8055) : AnalogChannel :=
  .A2 s.state.ana2

/-- Result of an inbound operation: the returned value (`none` marks a Rust
panic, `some` a gracefully returned `Result`) and whether a transfer was
attempted. -/
structure ReadOutcome (α : Type) where
  res : Option (Except UsbError α)
  attempted : Bool
  deriving Repr

/-- `K8055::read` from `src/src/lib.rs` lines 314-324: with no handle, fails
`NoDevice` without touching the transport; otherwise reads into an 8-byte
zero buffer (`tr` is the transport outcome: the buffer contents on success)
and decodes.  The session's cached state is never modified by the read
path. -/
def K8055.read (s : K8055) (tr : Except UsbError (List Nat)) : ReadOutcome Packet :=
  match s.hd with
  | some _ =>
    match tr with
    | .error e => ⟨some (.error e), true⟩
    | .ok frame => ⟨(K8055.decode frame).map .ok, true⟩
  | none => ⟨some (.error .noDevice), false⟩

/-- `K8055::read_digital_in` from `src/src/lib.rs` lines 228-234: extracts
the digital-in byte of a status packet through `from_bits(..).unwrap()`. -/
def K8055.read_digital_in (s : K8055) (tr : Except UsbError (List Nat)) : ReadOutcome Nat :=
  match (s.read tr).res with
  | some (.ok (.Status dig _ _ _)) => ⟨(DigitalChannel.from_bits dig).map .ok, (s.read tr).attempted⟩
  | some (.error e) => ⟨some (.error e), (s.read tr).attempted⟩
  | some (.ok _) => ⟨some (.error .invalidParam), (s.read tr).attempted⟩
  | none => ⟨none, (s.read tr).attempted⟩

/-- `K8055::read_digital_in_mask` from `src/src/lib.rs` lines 239-244: masks
the digital-in value. -/
def K8055.read_digital_in_mask (s : K8055) (tr : Except UsbError (List Nat)) (mask : Nat) :
    ReadOutcome Nat :=
  match (s.read_digital_in tr).res with
  | some (.ok c) => ⟨some (.ok (c &&& mask)), (s.read_digital_in tr).attempted⟩
  | some (.error e) => ⟨some (.error e), (s.read_digital_in tr).attempted⟩
  | none => ⟨none, (s.read_digital_in tr).attempted⟩

/-- `K8055::read_analog_in1` from `src/src/lib.rs` lines 271-277. -/
def K8055.read_analog_in1 (s : K8055) (tr : Except UsbError (List Nat)) :
    ReadOutcome AnalogChannel :=
  match (s.read tr).res with
  | some (.ok (.Status _ _ a1 _)) => ⟨some (.ok (.A1 a1)), (s.read tr).attempted⟩
  | some (.error e) => ⟨some (.error e), (s.read tr).attempted⟩
  | some (.ok _) => ⟨some (.error .invalidParam), (s.read tr).attempted⟩
  | none => ⟨none, (s.read tr).attempted⟩

/-- `K8055::read_analog_in2` from `src/src/lib.rs` lines 282-288. -/
def K8055.read_analog_in2 (s : K8055) (tr : Except UsbError (List Nat)) :
    ReadOutcome AnalogChannel :=
  match (s.read tr).res with
  | some (.ok (.Status _ _ _ a2)) => ⟨some (.ok (.A2 a2)), (s.read tr).attempted⟩
  | some (.error e) => ⟨some (.error e), (s.read tr).attempted⟩
  | some (.ok _) => ⟨some (.error .invalidParam), (s.read tr).attempted⟩
  | none => ⟨none, (s.read tr).attempted⟩

/-- The four public outbound operations, as a type to quantify over them. -/
inductive OutOp where
  | resetOp
  | writeDigitalOut (d : Nat)
  | writeDigitalOutMask (d mask : Nat)
  | writeAnalogOut (a : AnalogChannel)
  deriving DecidableEq, Repr

/-- Dispatch an outbound operation on a session, with `tr` the transport
outcome for the interrupt transfer. -/
def K8055.runOut (s : K8055) (tr : Except UsbError Unit) : OutOp → WriteOutcome
  | .resetOp => s.reset tr
  | .writeDigitalOut d => s.write_digital_out tr d
  | .writeDigitalOutMask d mask => s.write_digital_out_mask tr d mask
  | .writeAnalogOut a => s.write_analog_out tr a

theorem from_bits_total (b : Nat) : DigitalChannel.from_bits b = some b := by
  have hall : (255 ^^^ DigitalChannel.allBits) = 0 := by decide
  simp [DigitalChannel.from_bits, hall]

set_option maxRecDepth 4000 in
theorem DALL_and_byte (m : Nat) (hm : m < 256) : DALL &&& m = m := by
  have h : ∀ m' < 256, DALL &&& m' = m' := by decide
  exact h m hm

theorem decode_full_frame (b0 b1 b2 b3 b4 b5 b6 b7 : Nat) :
    K8055.decode [b0, b1, b2, b3, b4, b5, b6, b7] = some (.Status b0 b1 b2 b3) := rfl

theorem write_set_ok (s : K8055) (h : s.hd = some ()) (d a1 a2 : Nat) :
    s.write (.ok ()) (.SetAnalogDigital d a1 a2)
      = ⟨.ok (), { s with state := ⟨d, a1, a2⟩ }, some [5, d, a1, a2, 0, 0, 0, 0]⟩ := by
  simp [K8055.write, K8055.encode, h]

theorem write_failed (s : K8055) (e : UsbError) (p : Packet) :
    (s.write (.error e) p).self = s ∧ ∃ e', (s.write (.error e) p).res = .error e' := by
  cases h : s.hd <;> cases p <;> simp [K8055.write, K8055.encode, h]

/-- A sample unopened session, as produced by successful discovery. -/
def sampleUnopened : K8055 := ⟨some ⟨0x10cf, 0x5500⟩, none, ⟨0, 0, 0⟩⟩

/-- A sample open session with nonzero cached state. -/
def sampleOpen : K8055 := ⟨some ⟨0x10cf, 0x5500⟩, some (), ⟨7, 1, 2⟩⟩

/-- C1: for every session and every outbound operation (`reset`,
`write_digital_out`, `write_digital_out_mask`, `write_analog_out`), when the
interrupt transfer fails the session after the call — in particular its
cached digital mask and analog bytes — is exactly the session before the
call, and the call returns an error.  Since the transfer outcome is either
this failure case or the success case, the cache is updated only on a
successful transfer. -/
theorem C1_failed_write_preserves_cache (s : K8055) (e : UsbError) (op : OutOp) :
    (s.runOut (.error e) op).self = s
      ∧ ∃ e', (s.runOut (.error e) op).res = .error e' := by
  cases op with
  | resetOp => exact write_failed s e _
  | writeDigitalOut d => exact write_failed s e _
  | writeDigitalOutMask d mask => exact write_failed s e _
  | writeAnalogOut a => cases a <;> exact write_failed s e _

/-- C2: discovery with address "any" does not require the vendor id: Rust's
`&&` binds tighter than `||` in the `new_addr` condition, so the vendor test
only guards the `CARD_1` comparison, and the scan takes the first device in
enumeration order rather than the lowest product id.  On a bus listing a
foreign device (vendor 0) with product id `0x5501` before a genuine card at
`0x5500`, `new_addr` binds the foreign device, while the snapshot
`find_any_k8055` of src/src/k8055.rs selects the genuine lowest-address
card. -/
theorem C2_new_addr_any_wrong_device :
    K8055.new_addr [⟨0, 0x5501⟩, ⟨0x10cf, 0x5500⟩] CARD_ANY
        = .ok ⟨some ⟨0, 0x5501⟩, none, ⟨0, 0, 0⟩⟩
      ∧ K8055.find_any_k8055 [⟨0, 0x5501⟩, ⟨0x10cf, 0x5500⟩] = some ⟨0x10cf, 0x5500⟩
      ∧ K8055.new_addr [⟨0x1234, 0x9999⟩] CARD_ANY = .error .notFound := by
  refine ⟨rfl, rfl, rfl⟩

/-- C3: decode succeeds on every full 8-byte frame, yielding the status built
from the first four bytes positionally and ignoring the reserved bytes; but
on a buffer of fewer than 4 bytes, such as `[0, 0, 0]`, the code indexes the
slice out of bounds and panics (modelled as `none`) instead of returning a
short-frame error. -/
theorem C3_decode_short_frame_panics :
    (∀ b0 b1 b2 b3 b4 b5 b6 b7 : Nat,
        K8055.decode [b0, b1, b2, b3, b4, b5, b6, b7] = some (.Status b0 b1 b2 b3))
      ∧ K8055.decode [0, 0, 0] = none
      ∧ K8055.decode [] = none
      ∧ K8055.decode [1] = none
      ∧ K8055.decode [1, 2] = none :=
  ⟨decode_full_frame, rfl, rfl, rfl, rfl⟩

/-- C4: on a freshly discovered session (device reference present, no
handle), when the transport fails to open the device, `open` still returns
`true` while storing no handle, and a subsequent write then fails with the
not-open error — contradicting the claim (and the function's own doc
comment) that `open` returns failure exactly when the device cannot be
opened.  The idempotent half does hold: `open` on an already-open session
returns `true` and changes nothing. -/
theorem C4_open_reports_success_on_failure :
    (sampleUnopened.«open» none).1 = true
      ∧ (sampleUnopened.«open» none).2.hd = none
      ∧ ((sampleUnopened.«open» none).2.write (.ok ()) (.SetAnalogDigital 0 0 0)).res
          = .error .noDevice
      ∧ sampleOpen.«open» none = (true, sampleOpen)
      ∧ sampleOpen.«open» (some ()) = (true, sampleOpen) := by
  refine ⟨rfl, rfl, rfl, rfl, rfl⟩

/-- C5: encode deterministically maps the set-state command on any byte
values `d, a1, a2` to exactly the 8-byte frame `[5, d, a1, a2, 0, 0, 0, 0]`,
and fails with the unsupported-command error (`InvalidParam`) on the only
other packet variant, `Status`, which has no wire representation. -/
theorem C5_encode_exact_frame (d a1 a2 : Nat)
    (hd256 : d < 256) (ha1 : a1 < 256) (ha2 : a2 < 256) :
    K8055.encode (.SetAnalogDigital d a1 a2) = .ok [5, d, a1, a2, 0, 0, 0, 0]
      ∧ ∀ x y z w : Nat, K8055.encode (.Status x y z w) = .error .invalidParam :=
  ⟨rfl, fun _ _ _ _ => rfl⟩

theorem C5_encode_exact_frame_witness :
    7 < 256 ∧ 128 < 256 ∧ 255 < 256
      ∧ (K8055.encode (.SetAnalogDigital 7 128 255) = .ok [5, 7, 128, 255, 0, 0, 0, 0]
          ∧ ∀ x y z w : Nat, K8055.encode (.Status x y z w) = .error .invalidParam) :=
  ⟨by decide, by decide, by decide,
    C5_encode_exact_frame 7 128 255 (by decide) (by decide) (by decide)⟩

/-- C6: on an open session a successful `write_analog_out` sends the frame
built from the cached digital mask and the cached other analog byte with
only the targeted channel's byte replaced, and updates only that channel in
the cache; writing `A1 x` then `A2 y` leaves `get_analog_out1 = A1 x`,
`get_analog_out2 = A2 y`, and the cached digital mask unchanged. -/
theorem C6_analog_write_preserves_other (s : K8055) (h : s.hd = some ()) (x y : Nat) :
    (s.write_analog_out (.ok ()) (.A1 x)).sent
        = some [5, s.state.dig, x, s.state.ana2, 0, 0, 0, 0]
      ∧ (s.write_analog_out (.ok ()) (.A1 x)).self.state = ⟨s.state.dig, x, s.state.ana2⟩
      ∧ ((s.write_analog_out (.ok ()) (.A1 x)).self.write_analog_out (.ok ()) (.A2 y)).sent
        = some [5, s.state.dig, x, y, 0, 0, 0, 0]
      ∧ ((s.write_analog_out (.ok ()) (.A1 x)).self.write_analog_out
          (.ok ()) (.A2 y)).self.get_analog_out1 = .A1 x
      ∧ ((s.write_analog_out (.ok ()) (.A1 x)).self.write_analog_out
          (.ok ()) (.A2 y)).self.get_analog_out2 = .A2 y
      ∧ ((s.write_analog_out (.ok ()) (.A1 x)).self.write_analog_out
          (.ok ()) (.A2 y)).self.state.dig = s.state.dig := by
  simp [K8055.write_analog_out, write_set_ok, h,
    K8055.get_analog_out1, K8055.get_analog_out2]

theorem C6_analog_write_preserves_other_witness :
    sampleOpen.hd = some ()
      ∧ ((sampleOpen.write_analog_out (.ok ()) (.A1 10)).sent
            = some [5, 7, 10, 2, 0, 0, 0, 0]
          ∧ (sampleOpen.write_analog_out (.ok ()) (.A1 10)).self.state = ⟨7, 10, 2⟩
          ∧ ((sampleOpen.write_analog_out (.ok ()) (.A1 10)).self.write_analog_out
              (.ok ()) (.A2 20)).sent = some [5, 7, 10, 20, 0, 0, 0, 0]
          ∧ ((sampleOpen.write_analog_out (.ok ()) (.A1 10)).self.write_analog_out
              (.ok ()) (.A2 20)).self.get_analog_out1 = .A1 10
          ∧ ((sampleOpen.write_analog_out (.ok ()) (.A1 10)).self.write_analog_out
              (.ok ()) (.A2 20)).self.get_analog_out2 = .A2 20
          ∧ ((sampleOpen.write_analog_out (.ok ()) (.A1 10)).self.write_analog_out
              (.ok ()) (.A2 20)).self.state.dig = 7) :=
  ⟨rfl, C6_analog_write_preserves_other sampleOpen rfl 10 20⟩

/-- C7: `write_digital_out_mask d mask` is literally `write_digital_out`
applied to `d &&& mask` (bits outside the mask are forced off in the command
sent, with no read-modify-write), and for every byte mask a successful
`write_digital_out_mask DALL mask` followed by `get_digital_out` yields
exactly the mask. -/
theorem C7_mask_write_equiv (s : K8055) (tr : Except UsbError Unit) (d mask : Nat)
    (h : s.hd = some ()) (hm : mask < 256) :
    s.write_digital_out_mask tr d mask = s.write_digital_out tr (d &&& mask)
      ∧ (s.write_digital_out_mask (.ok ()) DALL mask).self.get_digital_out = some mask := by
  refine ⟨rfl, ?_⟩
  simp [K8055.write_digital_out_mask, K8055.write_digital_out, write_set_ok, h,
    K8055.get_digital_out, from_bits_total, DALL_and_byte mask hm]

theorem C7_mask_write_equiv_witness :
    sampleOpen.hd = some () ∧ 170 < 256
      ∧ (sampleOpen.write_digital_out_mask (.ok ()) 5 170
            = sampleOpen.write_digital_out (.ok ()) (5 &&& 170)
          ∧ (sampleOpen.write_digital_out_mask (.ok ()) DALL 170).self.get_digital_out
            = some 170) :=
  ⟨rfl, by decide, C7_mask_write_equiv sampleOpen (.ok ()) 5 170 rfl (by decide)⟩

/-- C8: on a session holding no device handle, every read and write
operation fails immediately with the not-open error (`NoDevice`), attempts
no transfer (nothing is sent and `attempted` is false), and leaves the
session — in particular the cached state — unchanged. -/
theorem C8_not_open_all_ops_fail (s : K8055) (h : s.hd = none) (tr : Except UsbError Unit)
    (trr : Except UsbError (List Nat)) (op : OutOp) (mask : Nat) :
    s.runOut tr op = ⟨.error .noDevice, s, none⟩
      ∧ s.read trr = ⟨some (.error .noDevice), false⟩
      ∧ s.read_digital_in trr = ⟨some (.error .noDevice), false⟩
      ∧ s.read_digital_in_mask trr mask = ⟨some (.error .noDevice), false⟩
      ∧ s.read_analog_in1 trr = ⟨some (.error .noDevice), false⟩
      ∧ s.read_analog_in2 trr = ⟨some (.error .noDevice), false⟩ := by
  have hw : ∀ p, s.write tr p = ⟨.error .noDevice, s, none⟩ := by
    intro p; simp [K8055.write, h]
  have hr : s.read trr = ⟨some (.error .noDevice), false⟩ := by
    simp [K8055.read, h]
  have hdi : s.read_digital_in trr = ⟨some (.error .noDevice), false⟩ := by
    simp [K8055.read_digital_in, hr]
  have ho : s.runOut tr op = ⟨.error .noDevice, s, none⟩ := by
    cases op with
    | resetOp => simpa [K8055.runOut, K8055.reset] using hw _
    | writeDigitalOut d => simpa [K8055.runOut, K8055.write_digital_out] using hw _
    | writeDigitalOutMask d m =>
        simpa [K8055.runOut, K8055.write_digital_out_mask, K8055.write_digital_out] using hw _
    | writeAnalogOut a =>
        cases a <;> simpa [K8055.runOut, K8055.write_analog_out] using hw _
  refine ⟨ho, hr, hdi, ?_, ?_, ?_⟩
  · simp [K8055.read_digital_in_mask, hdi]
  · simp [K8055.read_analog_in1, hr]
  · simp [K8055.read_analog_in2, hr]

theorem C8_not_open_all_ops_fail_witness :
    sampleUnopened.hd = none
      ∧ (sampleUnopened.runOut (.ok ()) (.writeDigitalOut 3)
            = ⟨.error .noDevice, sampleUnopened, none⟩
          ∧ sampleUnopened.read (.ok [1, 2, 3, 4, 0, 0, 0, 0])
            = ⟨some (.error .noDevice), false⟩
          ∧ sampleUnopened.read_digital_in (.ok [1, 2, 3, 4, 0, 0, 0, 0])
            = ⟨some (.error .noDevice), false⟩
          ∧ sampleUnopened.read_digital_in_mask (.ok [1, 2, 3, 4, 0, 0, 0, 0]) 3
            = ⟨some (.error .noDevice), false⟩
          ∧ sampleUnopened.read_analog_in1 (.ok [1, 2, 3, 4, 0, 0, 0, 0])
            = ⟨some (.error .noDevice), false⟩
          ∧ sampleUnopened.read_analog_in2 (.ok [1, 2, 3, 4, 0, 0, 0, 0])
            = ⟨some (.error .noDevice), false⟩) :=
  ⟨rfl, C8_not_open_all_ops_fail sampleUnopened rfl (.ok ())
    (.ok [1, 2, 3, 4, 0, 0, 0, 0]) (.writeDigitalOut 3) 3⟩

/-- C9: `DigitalChannel.from_bits` succeeds on every byte — all 8 bits are
defined flags, so the unknown-bit mask is zero — and therefore the
`unwrap` calls never panic: `get_digital_out` and `get_digital_out_mask`
return `some` on every session, and `read_digital_in` on any successfully
received 8-byte frame returns the digital-in byte rather than the panic
marker. -/
theorem C9_from_bits_total_no_panic (b : Nat) (hb : b < 256) (s : K8055) (m : Nat)
    (b0 b1 b2 b3 b4 b5 b6 b7 : Nat) (h : s.hd = some ()) :
    DigitalChannel.from_bits b = some b
      ∧ (s.get_digital_out).isSome = true
      ∧ (s.get_digital_out_mask m).isSome = true
      ∧ (s.read_digital_in (.ok [b0, b1, b2, b3, b4, b5, b6, b7])).res = some (.ok b0) := by
  refine ⟨from_bits_total b, ?_, ?_, ?_⟩
  · simp [K8055.get_digital_out, from_bits_total]
  · simp [K8055.get_digital_out_mask, from_bits_total]
  · simp [K8055.read_digital_in, K8055.read, decode_full_frame, h, from_bits_total]

theorem C9_from_bits_total_no_panic_witness :
    200 < 256 ∧ sampleOpen.hd = some ()
      ∧ (DigitalChannel.from_bits 200 = some 200
          ∧ (sampleOpen.get_digital_out).isSome = true
          ∧ (sampleOpen.get_digital_out_mask 3).isSome = true
          ∧ (sampleOpen.read_digital_in (.ok [9, 8, 7, 6, 5, 4, 3, 2])).res
            = some (.ok 9)) :=
  ⟨by decide, rfl, C9_from_bits_total_no_panic 200 (by decide) sampleOpen 3
    9 8 7 6 5 4 3 2 rfl⟩

/-- C10: `encode` succeeds only on `SetAnalogDigital` packets, and every
public outbound operation passes exactly such a packet to `write`; hence the
post-transfer `InvalidParam` branch of `write` is unreachable, and on an
open session a successful interrupt transfer always produces a success
return together with the cache updated to the fields of the sent frame. -/
theorem C10_success_return_iff_cache_update (s : K8055) (h : s.hd = some ()) (op : OutOp)
    (p : Packet) (v : List Nat) (hp : K8055.encode p = .ok v) :
    (∃ d a1 a2, p = .SetAnalogDigital d a1 a2)
      ∧ (s.runOut (.ok ()) op).res = .ok ()
      ∧ ∃ d a1 a2, (s.runOut (.ok ()) op).sent = some [5, d, a1, a2, 0, 0, 0, 0]
          ∧ (s.runOut (.ok ()) op).self.state = ⟨d, a1, a2⟩ := by
  refine ⟨?_, ?_⟩
  · cases p with
    | SetAnalogDigital d a1 a2 => exact ⟨d, a1, a2, rfl⟩
    | Status x y z w => simp [K8055.encode] at hp
  · have key : ∀ d a1 a2, (s.write (.ok ()) (.SetAnalogDigital d a1 a2)).res = .ok ()
        ∧ ∃ d' a1' a2',
            (s.write (.ok ()) (.SetAnalogDigital d a1 a2)).sent
              = some [5, d', a1', a2', 0, 0, 0, 0]
          ∧ (s.write (.ok ()) (.SetAnalogDigital d a1 a2)).self.state = ⟨d', a1', a2'⟩ := by
      intro d a1 a2
      rw [write_set_ok s h]
      exact ⟨rfl, d, a1, a2, rfl, rfl⟩
    cases op with
    | resetOp => exact ⟨(key 0 0 0).1, (key 0 0 0).2⟩
    | writeDigitalOut d => exact ⟨(key d _ _).1, (key d _ _).2⟩
    | writeDigitalOutMask d m => exact ⟨(key (d &&& m) _ _).1, (key (d &&& m) _ _).2⟩
    | writeAnalogOut a =>
        cases a with
        | A1 v' => exact ⟨(key _ v' _).1, (key _ v' _).2⟩
        | A2 v' => exact ⟨(key _ _ v').1, (key _ _ v').2⟩

theorem C10_success_return_iff_cache_update_witness :
    sampleOpen.hd = some ()
      ∧ K8055.encode (.SetAnalogDigital 1 2 3) = .ok [5, 1, 2, 3, 0, 0, 0, 0]
      ∧ ((∃ d a1 a2, (Packet.SetAnalogDigital 1 2 3) = .SetAnalogDigital d a1 a2)
          ∧ (sampleOpen.runOut (.ok ()) .resetOp).res = .ok ()
          ∧ ∃ d a1 a2, (sampleOpen.runOut (.ok ()) .resetOp).sent
                = some [5, d, a1, a2, 0, 0, 0, 0]
              ∧ (sampleOpen.runOut (.ok ()) .resetOp).self.state = ⟨d, a1, a2⟩) :=
  ⟨rfl, rfl, C10_success_return_iff_cache_update sampleOpen rfl .resetOp
    (.SetAnalogDigital 1 2 3) [5, 1, 2, 3, 0, 0, 0, 0] rfl⟩
